import Mathlib

/-!
# Exercise-order settlement workflow: shallow embedding

This file embeds the exercise-order settlement workflow of the Derayah-LTIP
repository in Lean 4 and proves (or refutes) the specified properties of it.

The embedded operations are direct translations of the client-side handlers:

* `handleConfirmExercise` — creation of an exercise order
  (`src/pages/EmployeeVestingEvents.tsx`);
* `handleApprove`, `handleReject`, `handleProcess` — the order lifecycle
  (`src/pages/ExerciseOrders.tsx`).

The relational store is modelled as lists of rows; the database's uniqueness
constraint `UNIQUE(vesting_event_id)` on `exercise_orders` (from the
migration that creates the table) is modelled in `insertExerciseOrder`.

Monetary amounts and share quantities (`numeric(15,2)` / `numeric(15,4)`
columns, JS numbers in the client) are modelled as rationals.  Timestamps
(`Date.now()`, `new Date().toISOString()`) are modelled by a `now : Nat`
parameter; `created_at` / `updated_at` columns, which no property mentions,
are omitted from the row records.
-/

/-- Status of an exercise order (`status` check constraint on
`exercise_orders`: pending / approved / rejected / processed / cancelled). -/
inductive OrderStatus where
  | pending
  | approved
  | rejected
  | processed
  | cancelled
deriving DecidableEq, Repr

/-- Status of a vesting event (`vesting_event_status` enum). -/
inductive VestingStatus where
  | pending
  | due
  | vested
  | pending_exercise
  | exercised
  | transferred
  | forfeited
  | cancelled
deriving DecidableEq, Repr

/-- Kind of a portfolio (`portfolio_type` enum). -/
inductive PortfolioType where
  | company_reserved
  | employee_vested
  | company_cash
  | employee_cash
deriving DecidableEq, Repr

/-- Type of a cash transfer. -/
inductive CashTransferType where
  | company_deposit
  | employee_deposit
  | exercise_settlement
deriving DecidableEq, Repr

/-- Type of a share transfer. -/
inductive ShareTransferType where
  | vesting
  | forfeiture
  | exercise
  | cancellation
deriving DecidableEq, Repr

/-- Status of a cash transfer. -/
inductive TransferStatus where
  | pending
  | approved
  | rejected
  | processed
deriving DecidableEq, Repr

/-- A row of the `portfolios` table.  `cash_balance numeric(15,2) DEFAULT 0`;
share columns are used by share portfolios, `cash_balance`/`currency` by cash
portfolios. -/
structure Portfolio where
  id : Nat
  portfolio_type : PortfolioType
  company_id : Nat
  employee_id : Option Nat
  portfolio_number : String
  total_shares : ℚ
  available_shares : ℚ
  locked_shares : ℚ
  cash_balance : ℚ
  currency : String
deriving DecidableEq, Repr

/-- A row of the `grants` table (the columns selected by `handleProcess`:
`id, company_id, employee_id`).  `company_id` is nullable in the client's
view, hence the JS fallback `grant.company_id || order.company_id`. -/
structure Grant where
  id : Nat
  company_id : Option Nat
  employee_id : Nat
deriving DecidableEq, Repr

/-- A row of the `vesting_events` table (columns the workflow reads). -/
structure VestingEvent where
  id : Nat
  grant_id : Nat
  employee_id : Nat
  shares_to_vest : ℚ
  exercise_price : Option ℚ
  status : VestingStatus
deriving DecidableEq, Repr

/-- A row of the `exercise_orders` table. -/
structure ExerciseOrder where
  id : Nat
  order_number : String
  company_id : Nat
  employee_id : Nat
  vesting_event_id : Nat
  grant_id : Nat
  shares_to_exercise : ℚ
  exercise_price_per_share : ℚ
  total_exercise_cost : ℚ
  cash_portfolio_id : Nat
  cash_balance_at_order : ℚ
  sufficient_funds : Bool
  status : OrderStatus
  rejection_reason : Option String
  processed_by : Option Nat
deriving DecidableEq, Repr

/-- A row of the `cash_transfers` table. -/
structure CashTransfer where
  transfer_number : String
  company_id : Nat
  transfer_type : CashTransferType
  from_portfolio_id : Option Nat
  to_portfolio_id : Option Nat
  employee_id : Option Nat
  exercise_order_id : Option Nat
  amount : ℚ
  currency : String
  status : TransferStatus
  description : String
  created_by : Nat
deriving DecidableEq, Repr

/-- A row of the `share_transfers` table. -/
structure ShareTransfer where
  transfer_number : String
  company_id : Nat
  grant_id : Nat
  employee_id : Nat
  from_portfolio_id : Nat
  to_portfolio_id : Nat
  shares_transferred : ℚ
  transfer_type : ShareTransferType
  transfer_date : Nat
  processed_by_system : Bool
  notes : String
deriving DecidableEq, Repr

/-- The Ledger Store: the tables the settlement workflow touches. -/
structure State where
  grants : List Grant
  portfolios : List Portfolio
  exercise_orders : List ExerciseOrder
  cash_transfers : List CashTransfer
  share_transfers : List ShareTransfer
  vesting_events : List VestingEvent
deriving DecidableEq, Repr

/-- JS `x || 0` applied to a numeric field that is present on the row:
`0` is falsy in JS and coalesces to `0`, every other number is kept. -/
def jsOr0 (x : ℚ) : ℚ := if x = 0 then 0 else x

theorem jsOr0_eq (x : ℚ) : jsOr0 x = x := by
  unfold jsOr0; split <;> simp_all

/-- JS `row.total_shares || 0` when `total_shares` was *not* in the select
list of the query that produced `row`: the property read yields `undefined`,
which `|| 0` coalesces to `0`. -/
def jsUndefOr0 : ℚ := 0

/-- `UPDATE portfolios SET ... WHERE id = pid` — applies `f` to every row
whose `id` equals `pid`. -/
def updatePortfolio (s : State) (pid : Nat) (f : Portfolio → Portfolio) : State :=
  { s with portfolios := s.portfolios.map fun p => if p.id = pid then f p else p }

/-- `UPDATE exercise_orders SET ... WHERE id = oid`. -/
def updateOrder (s : State) (oid : Nat) (f : ExerciseOrder → ExerciseOrder) : State :=
  { s with exercise_orders := s.exercise_orders.map fun e => if e.id = oid then f e else e }

/-- `UPDATE vesting_events SET ... WHERE id = vid`. -/
def updateVestingEvent (s : State) (vid : Nat) (f : VestingEvent → VestingEvent) : State :=
  { s with vesting_events := s.vesting_events.map fun v => if v.id = vid then f v else v }

/-- Row of `portfolios` with the given id (primary-key lookup). -/
def getPortfolio (s : State) (pid : Nat) : Option Portfolio :=
  s.portfolios.find? fun p => p.id = pid

/-- Row of `exercise_orders` with the given id. -/
def getOrder (s : State) (oid : Nat) : Option ExerciseOrder :=
  s.exercise_orders.find? fun e => e.id = oid

/-- Row of `vesting_events` with the given id. -/
def getVestingEvent (s : State) (vid : Nat) : Option VestingEvent :=
  s.vesting_events.find? fun v => v.id = vid

/-- `cash_balance` of the portfolio with the given id. -/
def cashBalanceOf (s : State) (pid : Nat) : Option ℚ :=
  (getPortfolio s pid).map Portfolio.cash_balance

/-- `total_shares` of the portfolio with the given id. -/
def totalSharesOf (s : State) (pid : Nat) : Option ℚ :=
  (getPortfolio s pid).map Portfolio.total_shares

/-- `available_shares` of the portfolio with the given id. -/
def availableSharesOf (s : State) (pid : Nat) : Option ℚ :=
  (getPortfolio s pid).map Portfolio.available_shares

/-- `status` of the exercise order with the given id. -/
def orderStatusOf (s : State) (oid : Nat) : Option OrderStatus :=
  (getOrder s oid).map ExerciseOrder.status

/-- `status` of the vesting event with the given id. -/
def vestingStatusOf (s : State) (vid : Nat) : Option VestingStatus :=
  (getVestingEvent s vid).map VestingEvent.status

/-- Errors surfaced by `handleConfirmExercise`. -/
inductive CreateError where
  /-- "Insufficient funds in your cash portfolio. Please deposit funds first." -/
  | insufficientFunds
  /-- The insert violates `UNIQUE(order_number)` or `UNIQUE(vesting_event_id)`
  on `exercise_orders` ("One order per vesting event"). -/
  | uniqueViolation
deriving DecidableEq, Repr

/-- Result of `handleConfirmExercise`: either the new state together with the
created order, or an error with the (unchanged) state. -/
inductive CreateResult where
  | ok (s : State) (o : ExerciseOrder)
  | err (e : CreateError) (s : State)
deriving DecidableEq, Repr

/-- `INSERT INTO exercise_orders`, enforcing the table's uniqueness
constraints `UNIQUE(order_number)` and `UNIQUE(vesting_event_id)`
(the latter commented "One order per vesting event" in the migration). -/
def insertExerciseOrder (s : State) (o : ExerciseOrder) : Option State :=
  if s.exercise_orders.any fun e =>
      e.order_number = o.order_number || e.vesting_event_id = o.vesting_event_id then
    none
  else
    some { s with exercise_orders := s.exercise_orders ++ [o] }

/-- Fresh primary key for an inserted row of `exercise_orders`. -/
def freshOrderId (s : State) : Nat :=
  (s.exercise_orders.map ExerciseOrder.id).foldr max 0 + 1

/-- Fresh primary key for an inserted row of `portfolios`. -/
def freshPortfolioId (s : State) : Nat :=
  (s.portfolios.map Portfolio.id).foldr max 0 + 1

/-- `handleConfirmExercise` from `src/pages/EmployeeVestingEvents.tsx`.

`exerciseEvent` is the vesting event being exercised, `cashPortfolio` the
component state set by `loadCashPortfolio` (the employee's `employee_cash`
portfolio row, or `none` if not yet loaded), `employeeId`/`companyId` the
row looked up from `employees` by the session user, `now` the wall clock
(`Date.now()`).

The total cost is `exerciseEvent.shares_to_vest * (exerciseEvent.exercise_price || 0)`:
a `null` exercise price is coalesced to `0`.  If the cash portfolio is
missing or its balance is below the total cost, the handler alerts and
returns **without creating anything**.  Otherwise it inserts the order with
`sufficient_funds: true` (a literal in the source) and `status: 'pending'`,
then sets the vesting event's status to `pending_exercise`. -/
def handleConfirmExercise (s : State) (exerciseEvent : VestingEvent)
    (cashPortfolio : Option Portfolio) (employeeId companyId now : Nat) :
    CreateResult :=
  let totalCost := exerciseEvent.shares_to_vest * (exerciseEvent.exercise_price.getD 0)
  match cashPortfolio with
  | none => .err .insufficientFunds s
  | some cp =>
    if cp.cash_balance < totalCost then
      .err .insufficientFunds s
    else
      let order : ExerciseOrder :=
        { id := freshOrderId s
          order_number := "EX-" ++ toString companyId ++ "-" ++ toString now
          company_id := companyId
          employee_id := employeeId
          vesting_event_id := exerciseEvent.id
          grant_id := exerciseEvent.grant_id
          shares_to_exercise := exerciseEvent.shares_to_vest
          exercise_price_per_share := exerciseEvent.exercise_price.getD 0
          total_exercise_cost := totalCost
          cash_portfolio_id := cp.id
          cash_balance_at_order := cp.cash_balance
          sufficient_funds := true
          status := .pending
          rejection_reason := none
          processed_by := none }
      match insertExerciseOrder s order with
      | none => .err .uniqueViolation s
      | some s1 =>
        let s2 := updateVestingEvent s1 exerciseEvent.id
          fun v => { v with status := .pending_exercise }
        .ok s2 order

/-- `handleApprove` from `src/pages/ExerciseOrders.tsx`: an unconditional
`UPDATE exercise_orders SET status = 'approved' WHERE id = order.id`.
The handler contains no check of the order's current status; the only
pending-only gating is that the UI renders the Approve button just for rows
displayed with status `pending`. -/
def handleApprove (s : State) (order : ExerciseOrder) : State :=
  updateOrder s order.id fun e => { e with status := .approved }

/-- Result of `handleReject`: the new state, or a validation error with the
(unchanged) state. -/
inductive RejectResult where
  | ok (s : State)
  | err (s : State)
deriving DecidableEq, Repr

/-- The JS guard `!rejectionReason.trim()`: the reason is blank when the
string obtained by trimming leading and trailing whitespace is empty, which
holds exactly when every character of the string is whitespace. -/
def jsTrimIsEmpty (r : String) : Bool :=
  r.data.all fun c => c.isWhitespace

/-- `handleReject` from `src/pages/ExerciseOrders.tsx`.

If `rejectionReason.trim()` is empty the handler alerts
("Please provide a rejection reason") and returns before touching the store.
Otherwise it sets the order's status to `rejected` with the reason
(an unconditional update by id) and then sets the order's vesting event's
status back to `pending_exercise`. -/
def handleReject (s : State) (orderToReject : ExerciseOrder) (rejectionReason : String) :
    RejectResult :=
  if jsTrimIsEmpty rejectionReason then
    .err s
  else
    let s1 := updateOrder s orderToReject.id
      fun e => { e with status := .rejected, rejection_reason := some rejectionReason }
    let s2 := updateVestingEvent s1 orderToReject.vesting_event_id
      fun v => { v with status := .pending_exercise }
    .ok s2

/-- Errors thrown by `handleProcess` (the `throw new Error(...)` sites, plus
the missing-user guard). -/
inductive ProcessError where
  /-- "Grant not found" (or the `.single()` query error). -/
  | grantNotFound
  /-- "Employee cash portfolio not found". -/
  | employeeCashPortfolioNotFound
  /-- "Company cash portfolio not found". -/
  | companyCashPortfolioNotFound
  /-- "Insufficient cash balance in employee portfolio". -/
  | insufficientCash
  /-- "Company reserved portfolio not found". -/
  | companyReservedNotFound
  /-- "Insufficient shares in company reserved portfolio". -/
  | insufficientShares
deriving DecidableEq, Repr

/-- Result of `handleProcess`.  The handler performs its steps as separate
sequential store calls with no transaction, and its `catch` block only
alerts, so an error thrown mid-sequence leaves every already-applied step in
place: the error case carries the state as mutated so far. -/
inductive ProcResult where
  | ok (s : State)
  | err (e : ProcessError) (s : State)
deriving DecidableEq, Repr

/-- The `find` over the company's portfolios locating the employee's cash
portfolio (`portfolio_type === 'employee_cash' && employee_id === employeeId`). -/
def findEmployeeCash (ports : List Portfolio) (employeeId : Nat) : Option Portfolio :=
  ports.find? fun p =>
    p.portfolio_type = .employee_cash && p.employee_id = some employeeId

/-- The `find` locating the company cash portfolio
(`portfolio_type === 'company_cash' && company_id === companyId && employee_id === null`). -/
def findCompanyCash (ports : List Portfolio) (companyId : Nat) : Option Portfolio :=
  ports.find? fun p =>
    p.portfolio_type = .company_cash && p.company_id = companyId && p.employee_id = none

/-- The `find` locating the company reserved share portfolio. -/
def findCompanyReserved (ports : List Portfolio) (companyId : Nat) : Option Portfolio :=
  ports.find? fun p =>
    p.portfolio_type = .company_reserved && p.company_id = companyId && p.employee_id = none

/-- The `find` locating the employee's vested share portfolio. -/
def findEmployeeVested (ports : List Portfolio) (companyId employeeId : Nat) :
    Option Portfolio :=
  ports.find? fun p =>
    p.portfolio_type = .employee_vested && p.employee_id = some employeeId
      && p.company_id = companyId

/-- `INSERT INTO cash_transfers`. -/
def insertCashTransfer (s : State) (ct : CashTransfer) : State :=
  { s with cash_transfers := s.cash_transfers ++ [ct] }

/-- `INSERT INTO share_transfers`. -/
def insertShareTransfer (s : State) (st : ShareTransfer) : State :=
  { s with share_transfers := s.share_transfers ++ [st] }

/-- `INSERT INTO portfolios` (the lazy creation of the employee's vested
portfolio). -/
def insertPortfolioRow (s : State) (p : Portfolio) : State :=
  { s with portfolios := s.portfolios ++ [p] }

/-- Resolution of the employee's vested share portfolio inside
`handleProcess`: reuse the existing `employee_vested` portfolio if the
company-scoped query finds one, otherwise insert a fresh one with zero
balances (`total_shares: 0, available_shares: 0, locked_shares: 0`) and use
it.  Returns the row the subsequent update targets together with the
(possibly extended) state. -/
def resolveToPortfolio (s3 : State) (companyId employeeId : Nat) : Portfolio × State :=
  let sharePortfolios := s3.portfolios.filter fun p => p.company_id = companyId
  match findEmployeeVested sharePortfolios companyId employeeId with
  | some t => (t, s3)
  | none =>
    let newPortfolio : Portfolio :=
      { id := freshPortfolioId s3
        portfolio_type := .employee_vested
        company_id := companyId
        employee_id := some employeeId
        portfolio_number := "VEST-" ++ toString companyId ++ "-" ++ toString employeeId
        total_shares := 0
        available_shares := 0
        locked_shares := 0
        cash_balance := 0
        currency := "SAR" }
    (newPortfolio, insertPortfolioRow s3 newPortfolio)

/-- The share-movement half of `handleProcess` (its Steps 2–6), entered after
the cash movement has been applied to `s3`.

Step 2 re-queries the company's portfolios selecting
`id, portfolio_type, company_id, employee_id, portfolio_number, available_shares`
— note that `total_shares` is **not** selected, so on the fetched
`toPortfolio` row the later property read `toPortfolio.total_shares` yields
`undefined`, and `(toPortfolio.total_shares || 0)` is `0` (`jsUndefOr0`).
If the employee has no vested portfolio yet, one is inserted with zero
balances (its `total_shares` is `0`, so the same expression again reads `0`).

The "enough shares" check on the company reserved portfolio happens *after*
the lazy creation, matching the source order. -/
def sharePhase (s3 : State) (order : ExerciseOrder) (companyId employeeId userId now : Nat) :
    ProcResult :=
  let sharesToTransfer := order.shares_to_exercise
  let sharePortfolios := s3.portfolios.filter fun p => p.company_id = companyId
  match findCompanyReserved sharePortfolios companyId with
  | none => .err .companyReservedNotFound s3
  | some fromPortfolio =>
    let toPortfolio := (resolveToPortfolio s3 companyId employeeId).1
    let s4 := (resolveToPortfolio s3 companyId employeeId).2
    if fromPortfolio.available_shares < sharesToTransfer then
      .err .insufficientShares s4
    else
      -- Step 3: deduct from company reserved portfolio
      let s5 := updatePortfolio s4 fromPortfolio.id
        fun p => { p with available_shares := fromPortfolio.available_shares - sharesToTransfer }
      -- add to employee vested portfolio; `toPortfolio.total_shares` is
      -- undefined (not selected) resp. 0 (fresh row), so the new
      -- `total_shares` is `0 + sharesToTransfer`, not a credit
      let s6 := updatePortfolio s5 toPortfolio.id
        fun p => { p with
          total_shares := jsUndefOr0 + sharesToTransfer
          available_shares := jsOr0 toPortfolio.available_shares + sharesToTransfer }
      -- Step 4: create share transfer record
      let st : ShareTransfer :=
        { transfer_number := "TRF-" ++ toString companyId ++ "-" ++ toString now
          company_id := companyId
          grant_id := order.grant_id
          employee_id := employeeId
          from_portfolio_id := fromPortfolio.id
          to_portfolio_id := toPortfolio.id
          shares_transferred := sharesToTransfer
          transfer_type := .exercise
          transfer_date := now
          processed_by_system := false
          notes := "Exercise order " ++ order.order_number }
      let s7 := insertShareTransfer s6 st
      -- Step 5: update exercise order status (unconditional update by id —
      -- no check that the current status is still 'approved')
      let s8 := updateOrder s7 order.id
        fun e => { e with status := .processed, processed_by := some userId }
      -- Step 6: update vesting event status
      let s9 := updateVestingEvent s8 order.vesting_event_id
        fun v => { v with status := .exercised }
      .ok s9

/-- `handleProcess` from `src/pages/ExerciseOrders.tsx`.

The handler never inspects `order.status`: the only approved-only gating is
that the UI renders the Process button just for rows displayed with status
`approved`.  The steps are sequential store calls; any thrown error leaves
the steps already performed in place (carried by the `err` state).

Step 1 queries the company's portfolios selecting
`id, portfolio_type, company_id, employee_id, cash_balance` and locates
the employee and company cash portfolios; it re-checks the employee's
balance against `order.total_exercise_cost` at process time.  Steps 1a/1b
write back the balances computed from the fetched rows; Step 1c records the
`exercise_settlement` cash transfer, already in status `processed`. -/
def handleProcess (s : State) (order : ExerciseOrder) (userId now : Nat) : ProcResult :=
  match s.grants.find? fun g => g.id = order.grant_id with
  | none => .err .grantNotFound s
  | some grant =>
    let companyId := grant.company_id.getD order.company_id
    let employeeId := order.employee_id
    let portfolios := s.portfolios.filter fun p => p.company_id = companyId
    match findEmployeeCash portfolios employeeId with
    | none => .err .employeeCashPortfolioNotFound s
    | some employeeCashPortfolio =>
      match findCompanyCash portfolios companyId with
      | none => .err .companyCashPortfolioNotFound s
      | some companyCashPortfolio =>
        if employeeCashPortfolio.cash_balance < order.total_exercise_cost then
          .err .insufficientCash s
        else
          -- Step 1a: deduct cash from employee's cash portfolio
          let newEmployeeCashBalance :=
            employeeCashPortfolio.cash_balance - order.total_exercise_cost
          let s1 := updatePortfolio s employeeCashPortfolio.id
            fun p => { p with cash_balance := newEmployeeCashBalance }
          -- Step 1b: add cash to company's cash portfolio
          let newCompanyCashBalance :=
            jsOr0 companyCashPortfolio.cash_balance + order.total_exercise_cost
          let s2 := updatePortfolio s1 companyCashPortfolio.id
            fun p => { p with cash_balance := newCompanyCashBalance }
          -- Step 1c: create cash transfer record for exercise settlement
          let ct : CashTransfer :=
            { transfer_number := "CT-" ++ toString companyId ++ "-" ++ toString now
              company_id := companyId
              transfer_type := .exercise_settlement
              from_portfolio_id := some employeeCashPortfolio.id
              to_portfolio_id := some companyCashPortfolio.id
              employee_id := some employeeId
              exercise_order_id := some order.id
              amount := order.total_exercise_cost
              currency := "SAR"
              status := .processed
              description := "Exercise settlement for order " ++ order.order_number
              created_by := userId }
          let s3 := insertCashTransfer s2 ct
          sharePhase s3 order companyId employeeId userId now

/-! ## Store lemmas

Primary-key lookups (`find?` by `id`) against updated, projected and
extended portfolio lists. -/

/-- Updating the rows with key `qid` does not change the lookup of a
different key `pid`, provided the update preserves `id` (ours all do). -/
theorem find?_update_ne (l : List Portfolio) (qid pid : Nat) (f : Portfolio → Portfolio)
    (hf : ∀ p, (f p).id = p.id) (hne : pid ≠ qid) :
    ((l.map fun p => if p.id = qid then f p else p).find? fun p => p.id = pid)
      = l.find? fun p => p.id = pid := by
  induction l with
  | nil => rfl
  | cons a l ih =>
    by_cases haq : a.id = qid
    · have : (f a).id ≠ pid := by rw [hf a, haq]; exact fun h => hne h.symm
      have hap : a.id ≠ pid := by rw [haq]; exact fun h => hne h.symm
      simp only [List.map_cons, if_pos haq]
      rw [List.find?_cons_of_neg _ (by simpa using this),
        List.find?_cons_of_neg _ (by simpa using hap), ih]
    · simp only [List.map_cons, if_neg haq]
      by_cases hap : a.id = pid
      · rw [List.find?_cons_of_pos _ (by simpa using hap),
          List.find?_cons_of_pos _ (by simpa using hap)]
      · rw [List.find?_cons_of_neg _ (by simpa using hap),
          List.find?_cons_of_neg _ (by simpa using hap), ih]

/-- Updating the rows with key `qid` rewrites the looked-up row by `f`. -/
theorem find?_update_self (l : List Portfolio) (qid : Nat) (f : Portfolio → Portfolio)
    (hf : ∀ p, (f p).id = p.id) (p : Portfolio)
    (hp : (l.find? fun r => r.id = qid) = some p) :
    ((l.map fun r => if r.id = qid then f r else r).find? fun r => r.id = qid)
      = some (f p) := by
  induction l with
  | nil => simp at hp
  | cons a l ih =>
    by_cases haq : a.id = qid
    · rw [List.find?_cons_of_pos _ (by simpa using haq)] at hp
      cases hp
      simp only [List.map_cons, if_pos haq]
      rw [List.find?_cons_of_pos _ (by simpa using (hf p).trans haq)]
    · rw [List.find?_cons_of_neg _ (by simpa using haq)] at hp
      simp only [List.map_cons, if_neg haq]
      rw [List.find?_cons_of_neg _ (by simpa using haq)]
      exact ih hp

/-- A projection `g` untouched by the update `f` is unchanged on every
lookup, whichever key was updated. -/
theorem find?_update_proj {β : Type} (l : List Portfolio) (qid : Nat)
    (f : Portfolio → Portfolio) (hf : ∀ p, (f p).id = p.id)
    (g : Portfolio → β) (hg : ∀ p, g (f p) = g p) (pid : Nat) :
    (((l.map fun r => if r.id = qid then f r else r).find? fun r => r.id = pid).map g)
      = (l.find? fun r => r.id = pid).map g := by
  induction l with
  | nil => rfl
  | cons a l ih =>
    by_cases haq : a.id = qid
    · simp only [List.map_cons, if_pos haq]
      by_cases hap : a.id = pid
      · rw [List.find?_cons_of_pos _ (by simpa using (hf a).trans hap),
          List.find?_cons_of_pos _ (by simpa using hap)]
        simp [hg a]
      · rw [List.find?_cons_of_neg _ (by simpa using (hf a).trans_ne hap),
          List.find?_cons_of_neg _ (by simpa using hap)]
        exact ih
    · simp only [List.map_cons, if_neg haq]
      by_cases hap : a.id = pid
      · rw [List.find?_cons_of_pos _ (by simpa using hap),
          List.find?_cons_of_pos _ (by simpa using hap)]
      · rw [List.find?_cons_of_neg _ (by simpa using hap),
          List.find?_cons_of_neg _ (by simpa using hap)]
        exact ih

/-- Appending rows (an insert) does not change a lookup that already
succeeds. -/
theorem find?_append_some (l l₂ : List Portfolio) (pid : Nat) (p : Portfolio)
    (h : (l.find? fun r => r.id = pid) = some p) :
    ((l ++ l₂).find? fun r => r.id = pid) = some p := by
  rw [List.find?_append, h]; rfl

/-- With pairwise-distinct ids (the primary-key property), looking up a
member row's id returns that row. -/
theorem find?_of_mem_nodup (l : List Portfolio) (p : Portfolio) (hp : p ∈ l)
    (hnd : (l.map Portfolio.id).Nodup) :
    (l.find? fun r => r.id = p.id) = some p := by
  induction l with
  | nil => simp at hp
  | cons a l ih =>
    rcases List.mem_cons.mp hp with rfl | hmem
    · rw [List.find?_cons_of_pos _ (by simp)]
    · have hane : a.id ≠ p.id := by
        simp only [List.map_cons, List.nodup_cons] at hnd
        exact fun h => hnd.1 (h ▸ List.mem_map_of_mem Portfolio.id hmem)
      rw [List.find?_cons_of_neg _ (by simpa using hane)]
      exact ih hmem (by simpa using ((List.nodup_cons.mp (by simpa using hnd)).2))

/-- With pairwise-distinct ids, distinct member rows have distinct ids. -/
theorem id_ne_of_nodup (l : List Portfolio) (p q : Portfolio) (hp : p ∈ l) (hq : q ∈ l)
    (hnd : (l.map Portfolio.id).Nodup) (hne : p ≠ q) : p.id ≠ q.id :=
  fun h => hne (List.inj_on_of_nodup_map hnd hp hq h)

@[simp]
theorem cashBalanceOf_updateOrder (s : State) (oid : Nat) (f : ExerciseOrder → ExerciseOrder)
    (pid : Nat) : cashBalanceOf (updateOrder s oid f) pid = cashBalanceOf s pid := rfl

@[simp]
theorem cashBalanceOf_updateVestingEvent (s : State) (vid : Nat)
    (f : VestingEvent → VestingEvent) (pid : Nat) :
    cashBalanceOf (updateVestingEvent s vid f) pid = cashBalanceOf s pid := rfl

@[simp]
theorem cashBalanceOf_insertCashTransfer (s : State) (ct : CashTransfer) (pid : Nat) :
    cashBalanceOf (insertCashTransfer s ct) pid = cashBalanceOf s pid := rfl

@[simp]
theorem cashBalanceOf_insertShareTransfer (s : State) (st : ShareTransfer) (pid : Nat) :
    cashBalanceOf (insertShareTransfer s st) pid = cashBalanceOf s pid := rfl

@[simp]
theorem totalSharesOf_updateOrder (s : State) (oid : Nat) (f : ExerciseOrder → ExerciseOrder)
    (pid : Nat) : totalSharesOf (updateOrder s oid f) pid = totalSharesOf s pid := rfl

@[simp]
theorem totalSharesOf_updateVestingEvent (s : State) (vid : Nat)
    (f : VestingEvent → VestingEvent) (pid : Nat) :
    totalSharesOf (updateVestingEvent s vid f) pid = totalSharesOf s pid := rfl

@[simp]
theorem totalSharesOf_insertCashTransfer (s : State) (ct : CashTransfer) (pid : Nat) :
    totalSharesOf (insertCashTransfer s ct) pid = totalSharesOf s pid := rfl

@[simp]
theorem totalSharesOf_insertShareTransfer (s : State) (st : ShareTransfer) (pid : Nat) :
    totalSharesOf (insertShareTransfer s st) pid = totalSharesOf s pid := rfl

@[simp]
theorem availableSharesOf_updateOrder (s : State) (oid : Nat)
    (f : ExerciseOrder → ExerciseOrder) (pid : Nat) :
    availableSharesOf (updateOrder s oid f) pid = availableSharesOf s pid := rfl

@[simp]
theorem availableSharesOf_updateVestingEvent (s : State) (vid : Nat)
    (f : VestingEvent → VestingEvent) (pid : Nat) :
    availableSharesOf (updateVestingEvent s vid f) pid = availableSharesOf s pid := rfl

@[simp]
theorem availableSharesOf_insertCashTransfer (s : State) (ct : CashTransfer) (pid : Nat) :
    availableSharesOf (insertCashTransfer s ct) pid = availableSharesOf s pid := rfl

@[simp]
theorem availableSharesOf_insertShareTransfer (s : State) (st : ShareTransfer) (pid : Nat) :
    availableSharesOf (insertShareTransfer s st) pid = availableSharesOf s pid := rfl

/-- A portfolio update whose row function preserves `id` and `cash_balance`
leaves every cash-balance lookup unchanged. -/
theorem cashBalanceOf_updatePortfolio_keep (s : State) (qid : Nat) (f : Portfolio → Portfolio)
    (hf : ∀ p, (f p).id = p.id) (hc : ∀ p, (f p).cash_balance = p.cash_balance) (pid : Nat) :
    cashBalanceOf (updatePortfolio s qid f) pid = cashBalanceOf s pid :=
  find?_update_proj s.portfolios qid f hf Portfolio.cash_balance hc pid

/-- A portfolio update preserving `id` and `total_shares` leaves every
total-shares lookup unchanged. -/
theorem totalSharesOf_updatePortfolio_keep (s : State) (qid : Nat) (f : Portfolio → Portfolio)
    (hf : ∀ p, (f p).id = p.id) (hc : ∀ p, (f p).total_shares = p.total_shares) (pid : Nat) :
    totalSharesOf (updatePortfolio s qid f) pid = totalSharesOf s pid :=
  find?_update_proj s.portfolios qid f hf Portfolio.total_shares hc pid

/-- A portfolio update preserving `id` and `available_shares` leaves every
available-shares lookup unchanged. -/
theorem availableSharesOf_updatePortfolio_keep (s : State) (qid : Nat)
    (f : Portfolio → Portfolio) (hf : ∀ p, (f p).id = p.id)
    (hc : ∀ p, (f p).available_shares = p.available_shares) (pid : Nat) :
    availableSharesOf (updatePortfolio s qid f) pid = availableSharesOf s pid :=
  find?_update_proj s.portfolios qid f hf Portfolio.available_shares hc pid

/-- Inserting a portfolio row does not change a cash-balance lookup that
already succeeds. -/
theorem cashBalanceOf_insertPortfolioRow (s : State) (newP : Portfolio) (pid : Nat) (q : ℚ)
    (hq : cashBalanceOf s pid = some q) :
    cashBalanceOf (insertPortfolioRow s newP) pid = some q := by
  obtain ⟨p, hp, hpc⟩ := Option.map_eq_some'.mp hq
  have := find?_append_some s.portfolios [newP] pid p hp
  simp only [cashBalanceOf, getPortfolio, insertPortfolioRow] at *
  rw [this, Option.map_some', hpc]

/-- Inserting a portfolio row does not change a total-shares lookup that
already succeeds. -/
theorem totalSharesOf_insertPortfolioRow (s : State) (newP : Portfolio) (pid : Nat) (q : ℚ)
    (hq : totalSharesOf s pid = some q) :
    totalSharesOf (insertPortfolioRow s newP) pid = some q := by
  obtain ⟨p, hp, hpc⟩ := Option.map_eq_some'.mp hq
  have := find?_append_some s.portfolios [newP] pid p hp
  simp only [totalSharesOf, getPortfolio, insertPortfolioRow] at *
  rw [this, Option.map_some', hpc]

/-- Inserting a portfolio row does not change an available-shares lookup
that already succeeds. -/
theorem availableSharesOf_insertPortfolioRow (s : State) (newP : Portfolio) (pid : Nat)
    (q : ℚ) (hq : availableSharesOf s pid = some q) :
    availableSharesOf (insertPortfolioRow s newP) pid = some q := by
  obtain ⟨p, hp, hpc⟩ := Option.map_eq_some'.mp hq
  have := find?_append_some s.portfolios [newP] pid p hp
  simp only [availableSharesOf, getPortfolio, insertPortfolioRow] at *
  rw [this, Option.map_some', hpc]

/-- Resolving the employee's vested portfolio preserves successful
cash-balance lookups (it at most appends a fresh row). -/
theorem resolveToPortfolio_cash (s3 : State) (cid eid pid : Nat) (q : ℚ)
    (hq : cashBalanceOf s3 pid = some q) :
    cashBalanceOf (resolveToPortfolio s3 cid eid).2 pid = some q := by
  unfold resolveToPortfolio
  cases hfe : findEmployeeVested (s3.portfolios.filter fun p => p.company_id = cid) cid eid with
  | some t => simpa [hfe]
  | none => simpa [hfe] using cashBalanceOf_insertPortfolioRow s3 _ pid q hq

/-- Resolving the employee's vested portfolio preserves successful
total-shares lookups. -/
theorem resolveToPortfolio_total (s3 : State) (cid eid pid : Nat) (q : ℚ)
    (hq : totalSharesOf s3 pid = some q) :
    totalSharesOf (resolveToPortfolio s3 cid eid).2 pid = some q := by
  unfold resolveToPortfolio
  cases hfe : findEmployeeVested (s3.portfolios.filter fun p => p.company_id = cid) cid eid with
  | some t => simpa [hfe]
  | none => simpa [hfe] using totalSharesOf_insertPortfolioRow s3 _ pid q hq

/-- Resolving the employee's vested portfolio preserves successful
available-shares lookups. -/
theorem resolveToPortfolio_avail (s3 : State) (cid eid pid : Nat) (q : ℚ)
    (hq : availableSharesOf s3 pid = some q) :
    availableSharesOf (resolveToPortfolio s3 cid eid).2 pid = some q := by
  unfold resolveToPortfolio
  cases hfe : findEmployeeVested (s3.portfolios.filter fun p => p.company_id = cid) cid eid with
  | some t => simpa [hfe]
  | none => simpa [hfe] using availableSharesOf_insertPortfolioRow s3 _ pid q hq

/-- Resolving the employee's vested portfolio touches no other table. -/
theorem resolveToPortfolio_tables (s3 : State) (cid eid : Nat) :
    (resolveToPortfolio s3 cid eid).2.exercise_orders = s3.exercise_orders ∧
    (resolveToPortfolio s3 cid eid).2.cash_transfers = s3.cash_transfers ∧
    (resolveToPortfolio s3 cid eid).2.share_transfers = s3.share_transfers ∧
    (resolveToPortfolio s3 cid eid).2.vesting_events = s3.vesting_events := by
  unfold resolveToPortfolio
  cases hfe : findEmployeeVested (s3.portfolios.filter fun p => p.company_id = cid) cid eid <;>
    simp [hfe, insertPortfolioRow]

/-- A successful share phase preserves every cash-balance lookup that
succeeds on entry: its updates write only share fields. -/
theorem sharePhase_cash (s3 : State) (o : ExerciseOrder) (cid eid uid now : Nat) (s' : State)
    (h : sharePhase s3 o cid eid uid now = .ok s') (pid : Nat) (q : ℚ)
    (hq : cashBalanceOf s3 pid = some q) : cashBalanceOf s' pid = some q := by
  cases hfr : findCompanyReserved (s3.portfolios.filter fun p => p.company_id = cid) cid with
  | none => simp [sharePhase, hfr] at h
  | some fp =>
    simp only [sharePhase, hfr] at h
    by_cases hins : fp.available_shares < o.shares_to_exercise
    · rw [if_pos hins] at h; cases h
    · rw [if_neg hins] at h
      injection h with h
      subst h
      simp only [cashBalanceOf_updateVestingEvent, cashBalanceOf_updateOrder,
        cashBalanceOf_insertShareTransfer]
      refine Eq.trans (cashBalanceOf_updatePortfolio_keep _ _ _ ?_ ?_ pid) ?_
      · exact fun p => rfl
      · exact fun p => rfl
      refine Eq.trans (cashBalanceOf_updatePortfolio_keep _ _ _ ?_ ?_ pid) ?_
      · exact fun p => rfl
      · exact fun p => rfl
      exact resolveToPortfolio_cash s3 cid eid pid q hq

/-- Primary-key lookup after updating a *different* key. -/
theorem getPortfolio_updatePortfolio_ne (s : State) (qid pid : Nat)
    (f : Portfolio → Portfolio) (hf : ∀ p, (f p).id = p.id) (hne : pid ≠ qid) :
    getPortfolio (updatePortfolio s qid f) pid = getPortfolio s pid := by
  unfold getPortfolio updatePortfolio
  exact find?_update_ne s.portfolios qid pid f hf hne

/-- Cash balance after updating a *different* portfolio. -/
theorem cashBalanceOf_updatePortfolio_ne (s : State) (qid pid : Nat)
    (f : Portfolio → Portfolio) (hf : ∀ p, (f p).id = p.id) (hne : pid ≠ qid) :
    cashBalanceOf (updatePortfolio s qid f) pid = cashBalanceOf s pid := by
  unfold cashBalanceOf
  rw [getPortfolio_updatePortfolio_ne s qid pid f hf hne]

/-- Cash balance of the updated portfolio itself. -/
theorem cashBalanceOf_updatePortfolio_self (s : State) (qid : Nat)
    (f : Portfolio → Portfolio) (hf : ∀ p, (f p).id = p.id) (p : Portfolio)
    (hp : getPortfolio s qid = some p) :
    cashBalanceOf (updatePortfolio s qid f) qid = some (f p).cash_balance := by
  unfold cashBalanceOf getPortfolio updatePortfolio
  unfold getPortfolio at hp
  have : p.id = qid := by
    have := List.find?_some hp
    simpa using this
  subst this
  rw [find?_update_self s.portfolios p.id f hf p hp]
  rfl

/-- C2: for every successful `process(order)`, cash is conserved — the
employee cash portfolio is debited by exactly `order.total_exercise_cost`,
the company cash portfolio is credited by exactly the same amount, and the
sum of the two cash balances after the operation equals the sum before.
`hids` is the primary-key property of the `portfolios` table. -/
theorem process_conserves_cash (s : State) (o : ExerciseOrder) (uid now : Nat) (s' : State)
    (hids : (s.portfolios.map Portfolio.id).Nodup)
    (h : handleProcess s o uid now = .ok s') :
    ∃ (g : Grant) (ep cp : Portfolio),
      (s.grants.find? fun gr => gr.id = o.grant_id) = some g ∧
      findEmployeeCash (s.portfolios.filter fun p =>
        p.company_id = g.company_id.getD o.company_id) o.employee_id = some ep ∧
      findCompanyCash (s.portfolios.filter fun p =>
        p.company_id = g.company_id.getD o.company_id) (g.company_id.getD o.company_id)
        = some cp ∧
      ep.id ≠ cp.id ∧
      cashBalanceOf s ep.id = some ep.cash_balance ∧
      cashBalanceOf s cp.id = some cp.cash_balance ∧
      cashBalanceOf s' ep.id = some (ep.cash_balance - o.total_exercise_cost) ∧
      cashBalanceOf s' cp.id = some (cp.cash_balance + o.total_exercise_cost) ∧
      (ep.cash_balance - o.total_exercise_cost) + (cp.cash_balance + o.total_exercise_cost)
        = ep.cash_balance + cp.cash_balance := by
  cases hg : s.grants.find? fun gr => gr.id = o.grant_id with
  | none => simp [handleProcess, hg] at h
  | some g =>
    simp only [handleProcess, hg] at h
    cases hep : findEmployeeCash (s.portfolios.filter fun p =>
        p.company_id = g.company_id.getD o.company_id) o.employee_id with
    | none => simp [hep] at h
    | some ep =>
      simp only [hep] at h
      cases hcp : findCompanyCash (s.portfolios.filter fun p =>
          p.company_id = g.company_id.getD o.company_id) (g.company_id.getD o.company_id) with
      | none => simp [hcp] at h
      | some cp =>
        simp only [hcp] at h
        by_cases hfunds : ep.cash_balance < o.total_exercise_cost
        · rw [if_pos hfunds] at h; cases h
        · rw [if_neg hfunds] at h
          have hep' := hep
          have hcp' := hcp
          rw [findEmployeeCash] at hep'
          rw [findCompanyCash] at hcp'
          have hepm : ep ∈ s.portfolios :=
            (List.mem_filter.mp (List.mem_of_find?_eq_some hep')).1
          have hcpm : cp ∈ s.portfolios :=
            (List.mem_filter.mp (List.mem_of_find?_eq_some hcp')).1
          have heppred := List.find?_some hep'
          have hcppred := List.find?_some hcp'
          simp only [Bool.and_eq_true, decide_eq_true_eq] at heppred hcppred
          have hne : ep ≠ cp := by
            intro hh
            have hept := heppred.1
            rw [hh, hcppred.1.1] at hept
            cases hept
          have hidne : ep.id ≠ cp.id := id_ne_of_nodup s.portfolios ep cp hepm hcpm hids hne
          have hgep : getPortfolio s ep.id = some ep := find?_of_mem_nodup s.portfolios ep hepm hids
          have hgcp : getPortfolio s cp.id = some cp := find?_of_mem_nodup s.portfolios cp hcpm hids
          refine ⟨g, ep, cp, rfl, hep, hcp, hidne, ?_, ?_, ?_, ?_, by ring⟩
          · simp [cashBalanceOf, hgep]
          · simp [cashBalanceOf, hgcp]
          · refine sharePhase_cash _ o _ _ uid now s' h ep.id _ ?_
            rw [cashBalanceOf_insertCashTransfer]
            refine Eq.trans (cashBalanceOf_updatePortfolio_ne _ _ _ _ ?_ hidne) ?_
            · exact fun p => rfl
            refine cashBalanceOf_updatePortfolio_self s ep.id _ ?_ ep hgep
            exact fun p => rfl
          · refine sharePhase_cash _ o _ _ uid now s' h cp.id _ ?_
            rw [cashBalanceOf_insertCashTransfer]
            rw [show cp.cash_balance + o.total_exercise_cost
                = jsOr0 cp.cash_balance + o.total_exercise_cost by rw [jsOr0_eq]]
            refine cashBalanceOf_updatePortfolio_self _ cp.id _ ?_ cp ?_
            · exact fun p => rfl
            · refine Eq.trans (getPortfolio_updatePortfolio_ne s ep.id cp.id _ ?_ ?_) hgcp
              · exact fun p => rfl
              · exact Ne.symm hidne

/-- State carried by a `ProcResult`, whether success or failure. -/
def stateOfProc : ProcResult → State
  | .ok s => s
  | .err _ s => s

/-- Concrete grant used by the witness scenarios (company 10, employee 5). -/
def wGrant : Grant := { id := 1, company_id := some 10, employee_id := 5 }

/-- Employee 5's cash portfolio with balance 2000. -/
def c2EmpCash : Portfolio :=
  { id := 1, portfolio_type := .employee_cash, company_id := 10, employee_id := some 5
    portfolio_number := "CASH-E5", total_shares := 0, available_shares := 0
    locked_shares := 0, cash_balance := 2000, currency := "SAR" }

/-- Company 10's cash portfolio with balance 500. -/
def c2CoCash : Portfolio :=
  { id := 2, portfolio_type := .company_cash, company_id := 10, employee_id := none
    portfolio_number := "CASH-C10", total_shares := 0, available_shares := 0
    locked_shares := 0, cash_balance := 500, currency := "SAR" }

/-- Company 10's reserved share portfolio with 1000 available shares. -/
def c2Reserved : Portfolio :=
  { id := 3, portfolio_type := .company_reserved, company_id := 10, employee_id := none
    portfolio_number := "RES-C10", total_shares := 1000, available_shares := 1000
    locked_shares := 0, cash_balance := 0, currency := "SAR" }

/-- Employee 5's vested share portfolio, initially empty. -/
def c2Vested : Portfolio :=
  { id := 4, portfolio_type := .employee_vested, company_id := 10, employee_id := some 5
    portfolio_number := "VEST-10-5", total_shares := 0, available_shares := 0
    locked_shares := 0, cash_balance := 0, currency := "SAR" }

/-- An approved order over 100 shares at price 12.50, total cost 1250. -/
def c2Order : ExerciseOrder :=
  { id := 100, order_number := "EX-10-0", company_id := 10, employee_id := 5
    vesting_event_id := 7, grant_id := 1, shares_to_exercise := 100
    exercise_price_per_share := 25/2, total_exercise_cost := 1250
    cash_portfolio_id := 1, cash_balance_at_order := 2000, sufficient_funds := true
    status := .approved, rejection_reason := none, processed_by := none }

/-- The vesting event order `c2Order` exercises. -/
def c2Event : VestingEvent :=
  { id := 7, grant_id := 1, employee_id := 5, shares_to_vest := 100
    exercise_price := some (25/2), status := .pending_exercise }

/-- Scenario-B state: employee cash 2000, company cash 500, order cost 1250. -/
def c2State : State :=
  { grants := [wGrant], portfolios := [c2EmpCash, c2CoCash, c2Reserved, c2Vested]
    exercise_orders := [c2Order], cash_transfers := [], share_transfers := []
    vesting_events := [c2Event] }

/-- The state after processing `c2Order` in `c2State`. -/
def c2Final : State := stateOfProc (handleProcess c2State c2Order 9 0)

/-- Witness for `process_conserves_cash`: processing the Scenario-B order
succeeds, and the theorem's conclusion holds there (employee cash
2000 → 750, company cash 500 → 1750, sum conserved). -/
theorem process_conserves_cash_witness :
    (c2State.portfolios.map Portfolio.id).Nodup ∧
    handleProcess c2State c2Order 9 0 = .ok c2Final ∧
    (∃ (g : Grant) (ep cp : Portfolio),
      (c2State.grants.find? fun gr => gr.id = c2Order.grant_id) = some g ∧
      findEmployeeCash (c2State.portfolios.filter fun p =>
        p.company_id = g.company_id.getD c2Order.company_id) c2Order.employee_id = some ep ∧
      findCompanyCash (c2State.portfolios.filter fun p =>
        p.company_id = g.company_id.getD c2Order.company_id)
        (g.company_id.getD c2Order.company_id) = some cp ∧
      ep.id ≠ cp.id ∧
      cashBalanceOf c2State ep.id = some ep.cash_balance ∧
      cashBalanceOf c2State cp.id = some cp.cash_balance ∧
      cashBalanceOf c2Final ep.id = some (ep.cash_balance - c2Order.total_exercise_cost) ∧
      cashBalanceOf c2Final cp.id = some (cp.cash_balance + c2Order.total_exercise_cost) ∧
      (ep.cash_balance - c2Order.total_exercise_cost)
        + (cp.cash_balance + c2Order.total_exercise_cost)
        = ep.cash_balance + cp.cash_balance) :=
  ⟨by decide, rfl,
    process_conserves_cash c2State c2Order 9 0 c2Final (by decide) rfl⟩

/-- Employee 5's vested share portfolio already holding 50 shares. -/
def c3Vested : Portfolio :=
  { id := 4, portfolio_type := .employee_vested, company_id := 10, employee_id := some 5
    portfolio_number := "VEST-10-5", total_shares := 50, available_shares := 50
    locked_shares := 0, cash_balance := 0, currency := "SAR" }

/-- Like `c2State`, but the employee's vested portfolio already holds
50 shares (a previous exercise). -/
def c3State : State :=
  { grants := [wGrant], portfolios := [c2EmpCash, c2CoCash, c2Reserved, c3Vested]
    exercise_orders := [c2Order], cash_transfers := [], share_transfers := []
    vesting_events := [c2Event] }

/-- The state after processing `c2Order` in `c3State`. -/
def c3Final : State := stateOfProc (handleProcess c3State c2Order 9 0)

/-- C3 (refuted on the code): processing an order of 100 shares for an
employee whose vested portfolio already holds 50 shares *sets* that
portfolio's `total_shares` to 100 instead of crediting it to 150: the
Step-2 select omits `total_shares`, so the JS read is `undefined`, coalesced
to 0 by `|| 0`.  The company's reserved `available_shares` is debited
1000 → 900 and the employee's `available_shares` credited 50 → 150, so
shares are not conserved (900 + 100 ≠ 1000 + 50) and the result violates
`available_shares ≤ total_shares`. -/
theorem process_clobbers_employee_total_shares :
    handleProcess c3State c2Order 9 0 = .ok c3Final ∧
    totalSharesOf c3State 4 = some 50 ∧
    availableSharesOf c3Final 3 = some 900 ∧
    totalSharesOf c3Final 4 = some 100 ∧
    availableSharesOf c3Final 4 = some 150 ∧
    totalSharesOf c3Final 4 ≠ some (50 + 100) ∧
    (900 : ℚ) + 100 ≠ 1000 + 50 := by
  refine ⟨rfl, rfl, ?_, ?_, ?_, ?_, by norm_num⟩
  · have hr : availableSharesOf c3Final 3 = some (1000 - 100) := rfl
    rw [hr]; norm_num
  · have ht : totalSharesOf c3Final 4 = some (jsUndefOr0 + 100) := rfl
    rw [ht, jsUndefOr0]; norm_num
  · have ha : availableSharesOf c3Final 4 = some (jsOr0 50 + 100) := rfl
    rw [ha, jsOr0_eq]; norm_num
  · have ht : totalSharesOf c3Final 4 = some (jsUndefOr0 + 100) := rfl
    rw [ht, jsUndefOr0]
    intro hcontra
    rw [Option.some_inj] at hcontra
    norm_num at hcontra

/-- Employee 5's cash portfolio after the first settlement: 3750. -/
def c1EmpCash : Portfolio :=
  { id := 1, portfolio_type := .employee_cash, company_id := 10, employee_id := some 5
    portfolio_number := "CASH-E5", total_shares := 0, available_shares := 0
    locked_shares := 0, cash_balance := 3750, currency := "SAR" }

/-- Company 10's cash portfolio after the first settlement: 1750. -/
def c1CoCash : Portfolio :=
  { id := 2, portfolio_type := .company_cash, company_id := 10, employee_id := none
    portfolio_number := "CASH-C10", total_shares := 0, available_shares := 0
    locked_shares := 0, cash_balance := 1750, currency := "SAR" }

/-- Company 10's reserved portfolio after the first settlement: 900 available. -/
def c1Reserved : Portfolio :=
  { id := 3, portfolio_type := .company_reserved, company_id := 10, employee_id := none
    portfolio_number := "RES-C10", total_shares := 1000, available_shares := 900
    locked_shares := 0, cash_balance := 0, currency := "SAR" }

/-- Employee 5's vested portfolio after the first settlement. -/
def c1Vested : Portfolio :=
  { id := 4, portfolio_type := .employee_vested, company_id := 10, employee_id := some 5
    portfolio_number := "VEST-10-5", total_shares := 100, available_shares := 100
    locked_shares := 0, cash_balance := 0, currency := "SAR" }

/-- The order of `c2State` *after* it has already been settled once:
status `processed`. -/
def c1Order : ExerciseOrder :=
  { id := 100, order_number := "EX-10-0", company_id := 10, employee_id := 5
    vesting_event_id := 7, grant_id := 1, shares_to_exercise := 100
    exercise_price_per_share := 25/2, total_exercise_cost := 1250
    cash_portfolio_id := 1, cash_balance_at_order := 2000, sufficient_funds := true
    status := .processed, rejection_reason := none, processed_by := some 9 }

/-- The vesting event after the first settlement: `exercised`. -/
def c1Event : VestingEvent :=
  { id := 7, grant_id := 1, employee_id := 5, shares_to_vest := 100
    exercise_price := some (25/2), status := .exercised }

/-- A state in which order 100 has already been settled (status
`processed`) and the employee still has 3750 in cash. -/
def c1State : State :=
  { grants := [wGrant], portfolios := [c1EmpCash, c1CoCash, c1Reserved, c1Vested]
    exercise_orders := [c1Order], cash_transfers := [], share_transfers := []
    vesting_events := [c1Event] }

/-- The state after calling `process` a second time on the already
processed order. -/
def c1Final : State := stateOfProc (handleProcess c1State c1Order 9 1)

/-- C1 (refuted on the code): `handleProcess` never inspects
`order.status` and updates by id unconditionally, so a second `process`
call on an order whose status is already `processed` succeeds again and
re-applies the cash debit: the employee's balance drops from 3750 to 2500
instead of the call failing with an invalid-state error. -/
theorem process_reprocesses_processed_order :
    orderStatusOf c1State 100 = some .processed ∧
    handleProcess c1State c1Order 9 1 = .ok c1Final ∧
    cashBalanceOf c1State 1 = some 3750 ∧
    cashBalanceOf c1Final 1 = some 2500 := by
  refine ⟨rfl, rfl, rfl, ?_⟩
  have hr : cashBalanceOf c1Final 1 = some (3750 - 1250) := rfl
  rw [hr]; norm_num

/-- An order that is already in the terminal status `processed`. -/
def c6Order : ExerciseOrder :=
  { id := 100, order_number := "EX-10-0", company_id := 10, employee_id := 5
    vesting_event_id := 7, grant_id := 1, shares_to_exercise := 100
    exercise_price_per_share := 25/2, total_exercise_cost := 1250
    cash_portfolio_id := 1, cash_balance_at_order := 2000, sufficient_funds := true
    status := .processed, rejection_reason := none, processed_by := some 9 }

/-- A store holding only the processed order 100. -/
def c6State : State :=
  { grants := [], portfolios := [], exercise_orders := [c6Order]
    cash_transfers := [], share_transfers := [], vesting_events := [] }

/-- C6 (refuted on the code): `handleApprove` performs an unconditional
update by id with no check of the current status and no invalid-state
failure path, so approving an order that is already `processed` silently
moves it back to `approved` — a transition out of a terminal state. -/
theorem approve_overwrites_terminal_status :
    orderStatusOf c6State 100 = some .processed ∧
    orderStatusOf (handleApprove c6State c6Order) 100 = some .approved :=
  ⟨rfl, rfl⟩

/-- When the share phase fails its "enough shares" check, the state it
leaves behind is the entry state possibly extended by the lazily created
vested portfolio: every successful lookup is preserved, and no other table
is touched. -/
theorem sharePhase_insufficientShares_state (s3 : State) (o : ExerciseOrder)
    (cid eid uid now : Nat) (t : State)
    (h : sharePhase s3 o cid eid uid now = .err .insufficientShares t) :
    (∀ pid q, totalSharesOf s3 pid = some q → totalSharesOf t pid = some q) ∧
    (∀ pid q, availableSharesOf s3 pid = some q → availableSharesOf t pid = some q) ∧
    (∀ pid q, cashBalanceOf s3 pid = some q → cashBalanceOf t pid = some q) ∧
    t.exercise_orders = s3.exercise_orders ∧
    t.cash_transfers = s3.cash_transfers ∧
    t.share_transfers = s3.share_transfers ∧
    t.vesting_events = s3.vesting_events := by
  cases hfr : findCompanyReserved (s3.portfolios.filter fun p => p.company_id = cid) cid with
  | none =>
    simp only [sharePhase, hfr] at h
    injection h with he ht
    cases he
  | some fp =>
    simp only [sharePhase, hfr] at h
    by_cases hins : fp.available_shares < o.shares_to_exercise
    · rw [if_pos hins] at h
      injection h with he ht
      subst ht
      obtain ⟨h1, h2, h3, h4⟩ := resolveToPortfolio_tables s3 cid eid
      exact ⟨fun pid q => resolveToPortfolio_total s3 cid eid pid q,
        fun pid q => resolveToPortfolio_avail s3 cid eid pid q,
        fun pid q => resolveToPortfolio_cash s3 cid eid pid q, h1, h2, h3, h4⟩
    · rw [if_neg hins] at h
      cases h

/-- C4: if `process(order)` throws the insufficient-shares error after the
cash steps have completed, nothing is rolled back: the employee cash debit,
the company cash credit and the created `exercise_settlement` cash transfer
persist in the resulting state, while the exercise orders (hence the order's
`approved` status), the share transfers and the vesting events are exactly
as before and no portfolio's share balances have changed. -/
theorem process_insufficient_shares_no_rollback (s : State) (o : ExerciseOrder)
    (uid now : Nat) (t : State)
    (hids : (s.portfolios.map Portfolio.id).Nodup)
    (h : handleProcess s o uid now = .err .insufficientShares t) :
    ∃ (g : Grant) (ep cp : Portfolio),
      (s.grants.find? fun gr => gr.id = o.grant_id) = some g ∧
      findEmployeeCash (s.portfolios.filter fun p =>
        p.company_id = g.company_id.getD o.company_id) o.employee_id = some ep ∧
      findCompanyCash (s.portfolios.filter fun p =>
        p.company_id = g.company_id.getD o.company_id) (g.company_id.getD o.company_id)
        = some cp ∧
      cashBalanceOf t ep.id = some (ep.cash_balance - o.total_exercise_cost) ∧
      cashBalanceOf t cp.id = some (cp.cash_balance + o.total_exercise_cost) ∧
      (∃ ct, ct ∈ t.cash_transfers ∧ ct.transfer_type = .exercise_settlement ∧
        ct.exercise_order_id = some o.id ∧ ct.amount = o.total_exercise_cost ∧
        ct.status = .processed) ∧
      t.exercise_orders = s.exercise_orders ∧
      t.share_transfers = s.share_transfers ∧
      t.vesting_events = s.vesting_events ∧
      (∀ p ∈ s.portfolios, totalSharesOf t p.id = some p.total_shares ∧
        availableSharesOf t p.id = some p.available_shares) := by
  cases hg : s.grants.find? fun gr => gr.id = o.grant_id with
  | none => simp [handleProcess, hg] at h
  | some g =>
    simp only [handleProcess, hg] at h
    cases hep : findEmployeeCash (s.portfolios.filter fun p =>
        p.company_id = g.company_id.getD o.company_id) o.employee_id with
    | none => simp [hep] at h
    | some ep =>
      simp only [hep] at h
      cases hcp : findCompanyCash (s.portfolios.filter fun p =>
          p.company_id = g.company_id.getD o.company_id) (g.company_id.getD o.company_id) with
      | none => simp [hcp] at h
      | some cp =>
        simp only [hcp] at h
        by_cases hfunds : ep.cash_balance < o.total_exercise_cost
        · rw [if_pos hfunds] at h
          injection h with he ht
          cases he
        · rw [if_neg hfunds] at h
          have hep' := hep
          have hcp' := hcp
          rw [findEmployeeCash] at hep'
          rw [findCompanyCash] at hcp'
          have hepm : ep ∈ s.portfolios :=
            (List.mem_filter.mp (List.mem_of_find?_eq_some hep')).1
          have hcpm : cp ∈ s.portfolios :=
            (List.mem_filter.mp (List.mem_of_find?_eq_some hcp')).1
          have heppred := List.find?_some hep'
          have hcppred := List.find?_some hcp'
          simp only [Bool.and_eq_true, decide_eq_true_eq] at heppred hcppred
          have hne : ep ≠ cp := by
            intro hh
            have hept := heppred.1
            rw [hh, hcppred.1.1] at hept
            cases hept
          have hidne : ep.id ≠ cp.id := id_ne_of_nodup s.portfolios ep cp hepm hcpm hids hne
          have hgep : getPortfolio s ep.id = some ep := find?_of_mem_nodup s.portfolios ep hepm hids
          have hgcp : getPortfolio s cp.id = some cp := find?_of_mem_nodup s.portfolios cp hcpm hids
          obtain ⟨hTot, hAvail, hCash, hOrd, hCt, hSt, hVe⟩ :=
            sharePhase_insufficientShares_state _ o _ _ uid now t h
          refine ⟨g, ep, cp, rfl, hep, hcp, ?_, ?_, ?_, hOrd.trans rfl, hSt.trans rfl,
            hVe.trans rfl, ?_⟩
          · refine hCash ep.id _ ?_
            rw [cashBalanceOf_insertCashTransfer]
            refine Eq.trans (cashBalanceOf_updatePortfolio_ne _ _ _ _ ?_ hidne) ?_
            · exact fun p => rfl
            refine cashBalanceOf_updatePortfolio_self s ep.id _ ?_ ep hgep
            exact fun p => rfl
          · refine hCash cp.id _ ?_
            rw [cashBalanceOf_insertCashTransfer]
            rw [show cp.cash_balance + o.total_exercise_cost
                = jsOr0 cp.cash_balance + o.total_exercise_cost by rw [jsOr0_eq]]
            refine cashBalanceOf_updatePortfolio_self _ cp.id _ ?_ cp ?_
            · exact fun p => rfl
            · refine Eq.trans (getPortfolio_updatePortfolio_ne s ep.id cp.id _ ?_ ?_) hgcp
              · exact fun p => rfl
              · exact Ne.symm hidne
          · rw [hCt]
            exact ⟨_, List.mem_append_right _ (List.mem_singleton_self _), rfl, rfl, rfl, rfl⟩
          · intro p hp
            have hgp : getPortfolio s p.id = some p := find?_of_mem_nodup s.portfolios p hp hids
            constructor
            · refine hTot p.id _ ?_
              rw [totalSharesOf_insertCashTransfer]
              refine Eq.trans (totalSharesOf_updatePortfolio_keep _ _ _ ?_ ?_ p.id) ?_
              · exact fun r => rfl
              · exact fun r => rfl
              refine Eq.trans (totalSharesOf_updatePortfolio_keep _ _ _ ?_ ?_ p.id) ?_
              · exact fun r => rfl
              · exact fun r => rfl
              simp [totalSharesOf, hgp]
            · refine hAvail p.id _ ?_
              rw [availableSharesOf_insertCashTransfer]
              refine Eq.trans (availableSharesOf_updatePortfolio_keep _ _ _ ?_ ?_ p.id) ?_
              · exact fun r => rfl
              · exact fun r => rfl
              refine Eq.trans (availableSharesOf_updatePortfolio_keep _ _ _ ?_ ?_ p.id) ?_
              · exact fun r => rfl
              · exact fun r => rfl
              simp [availableSharesOf, hgp]

/-- Company 10's reserved portfolio with only 50 available shares — not
enough for a 100-share order. -/
def c4Reserved : Portfolio :=
  { id := 3, portfolio_type := .company_reserved, company_id := 10, employee_id := none
    portfolio_number := "RES-C10", total_shares := 50, available_shares := 50
    locked_shares := 0, cash_balance := 0, currency := "SAR" }

/-- Like `c2State` but with only 50 reserved shares, so the share phase of
`process` fails after the cash phase has completed. -/
def c4State : State :=
  { grants := [wGrant], portfolios := [c2EmpCash, c2CoCash, c4Reserved, c2Vested]
    exercise_orders := [c2Order], cash_transfers := [], share_transfers := []
    vesting_events := [c2Event] }

/-- The partially updated state left by the failing `process` call. -/
def c4T : State := stateOfProc (handleProcess c4State c2Order 9 0)

/-- Witness for `process_insufficient_shares_no_rollback`: on `c4State` the
call fails with the insufficient-shares error and the no-rollback
conclusion holds at that concrete input. -/
theorem process_insufficient_shares_no_rollback_witness :
    (c4State.portfolios.map Portfolio.id).Nodup ∧
    handleProcess c4State c2Order 9 0 = .err .insufficientShares c4T ∧
    (∃ (g : Grant) (ep cp : Portfolio),
      (c4State.grants.find? fun gr => gr.id = c2Order.grant_id) = some g ∧
      findEmployeeCash (c4State.portfolios.filter fun p =>
        p.company_id = g.company_id.getD c2Order.company_id) c2Order.employee_id = some ep ∧
      findCompanyCash (c4State.portfolios.filter fun p =>
        p.company_id = g.company_id.getD c2Order.company_id)
        (g.company_id.getD c2Order.company_id) = some cp ∧
      cashBalanceOf c4T ep.id = some (ep.cash_balance - c2Order.total_exercise_cost) ∧
      cashBalanceOf c4T cp.id = some (cp.cash_balance + c2Order.total_exercise_cost) ∧
      (∃ ct, ct ∈ c4T.cash_transfers ∧ ct.transfer_type = .exercise_settlement ∧
        ct.exercise_order_id = some c2Order.id ∧ ct.amount = c2Order.total_exercise_cost ∧
        ct.status = .processed) ∧
      c4T.exercise_orders = c4State.exercise_orders ∧
      c4T.share_transfers = c4State.share_transfers ∧
      c4T.vesting_events = c4State.vesting_events ∧
      (∀ p ∈ c4State.portfolios, totalSharesOf c4T p.id = some p.total_shares ∧
        availableSharesOf c4T p.id = some p.available_shares)) :=
  ⟨by decide, rfl,
    process_insufficient_shares_no_rollback c4State c2Order 9 0 c4T (by decide) rfl⟩

/-- C8: rejecting with an empty or whitespace-only reason fails the
validation check and is a no-op: the handler returns before performing any
store update, so the result carries the input state unchanged — the order
keeps its status (e.g. `pending`) and gets no `rejection_reason`, and the
vesting event is untouched. -/
theorem reject_blank_reason_is_noop (s : State) (o : ExerciseOrder) (reason : String)
    (h : jsTrimIsEmpty reason = true) :
    handleReject s o reason = .err s := by
  simp [handleReject, h]

/-- A pending order on vesting event 7, awaiting operator action. -/
def c8Order : ExerciseOrder :=
  { id := 100, order_number := "EX-10-0", company_id := 10, employee_id := 5
    vesting_event_id := 7, grant_id := 1, shares_to_exercise := 100
    exercise_price_per_share := 25/2, total_exercise_cost := 1250
    cash_portfolio_id := 1, cash_balance_at_order := 2000, sufficient_funds := true
    status := .pending, rejection_reason := none, processed_by := none }

/-- The vesting event of `c8Order`. -/
def c8Event : VestingEvent :=
  { id := 7, grant_id := 1, employee_id := 5, shares_to_vest := 100
    exercise_price := some (25/2), status := .pending_exercise }

/-- A store holding the pending order 100 and its vesting event. -/
def c8State : State :=
  { grants := [wGrant], portfolios := [], exercise_orders := [c8Order]
    cash_transfers := [], share_transfers := [], vesting_events := [c8Event] }

/-- Witness for `reject_blank_reason_is_noop` at the whitespace-only reason
`"   "`: the call fails and the state — order still `pending`, vesting
event still `pending_exercise` — is returned unchanged. -/
theorem reject_blank_reason_is_noop_witness :
    jsTrimIsEmpty "   " = true ∧
    handleReject c8State c8Order "   " = .err c8State ∧
    orderStatusOf c8State 100 = some .pending ∧
    vestingStatusOf c8State 7 = some .pending_exercise :=
  ⟨rfl, reject_blank_reason_is_noop c8State c8Order "   " rfl, rfl, rfl⟩

/-- Employee 5's cash portfolio holding only 500. -/
def c5CashP : Portfolio :=
  { id := 1, portfolio_type := .employee_cash, company_id := 10, employee_id := some 5
    portfolio_number := "CASH-E5", total_shares := 0, available_shares := 0
    locked_shares := 0, cash_balance := 500, currency := "SAR" }

/-- A pending-exercise vesting event over 100 shares at price 12.50. -/
def c5Event : VestingEvent :=
  { id := 7, grant_id := 1, employee_id := 5, shares_to_vest := 100
    exercise_price := some (25/2), status := .pending_exercise }

/-- A store with no exercise orders and a 500-balance cash portfolio. -/
def c5State : State :=
  { grants := [wGrant], portfolios := [c5CashP], exercise_orders := []
    cash_transfers := [], share_transfers := [], vesting_events := [c5Event] }

/-- C5 counterexample: with balance 500 and total cost 1250 (= 100 × 12.50)
the confirm handler fails with the insufficient-funds alert and creates
nothing — the store is returned unchanged and still contains no exercise
order, refuting "creation is not blocked by the shortfall". -/
theorem create_underfunded_blocked_cex :
    c5CashP.cash_balance < c5Event.shares_to_vest * (c5Event.exercise_price.getD 0) ∧
    handleConfirmExercise c5State c5Event (some c5CashP) 5 10 0
      = .err .insufficientFunds c5State ∧
    c5State.exercise_orders = [] := by
  have hlt : c5CashP.cash_balance < c5Event.shares_to_vest * (c5Event.exercise_price.getD 0) := by
    norm_num [c5CashP, c5Event]
  refine ⟨hlt, ?_, rfl⟩
  simp only [handleConfirmExercise]
  rw [if_pos hlt]

/-- C5 (amended): creation of an exercise order is *blocked* when the cash
portfolio's balance is below the total exercise cost — the handler fails
with the insufficient-funds alert before inserting anything, leaving the
store unchanged (orders are only ever created with `sufficient_funds`
recorded as `true`). -/
theorem create_underfunded_blocked (s : State) (ev : VestingEvent) (cp : Portfolio)
    (employeeId companyId now : Nat)
    (h : cp.cash_balance < ev.shares_to_vest * (ev.exercise_price.getD 0)) :
    handleConfirmExercise s ev (some cp) employeeId companyId now
      = .err .insufficientFunds s := by
  simp only [handleConfirmExercise]
  rw [if_pos h]

/-- Witness for `create_underfunded_blocked` at balance 500 versus cost
1250. -/
theorem create_underfunded_blocked_witness :
    c5CashP.cash_balance < c5Event.shares_to_vest * (c5Event.exercise_price.getD 0) ∧
    handleConfirmExercise c5State c5Event (some c5CashP) 5 10 99
      = .err .insufficientFunds c5State :=
  ⟨by norm_num [c5CashP, c5Event],
   create_underfunded_blocked c5State c5Event c5CashP 5 10 99
     (by norm_num [c5CashP, c5Event])⟩

/-- C9: every order produced by the confirm handler satisfies
`total_exercise_cost = shares_to_exercise × exercise_price_per_share`
exactly — all three fields are computed from the same
`shares_to_vest` and (coalesced) `exercise_price`. -/
theorem created_order_cost_invariant (s : State) (ev : VestingEvent)
    (cpo : Option Portfolio) (employeeId companyId now : Nat) (s' : State)
    (o : ExerciseOrder)
    (h : handleConfirmExercise s ev cpo employeeId companyId now = .ok s' o) :
    o.total_exercise_cost = o.shares_to_exercise * o.exercise_price_per_share := by
  cases cpo with
  | none => simp [handleConfirmExercise] at h
  | some cp =>
    simp only [handleConfirmExercise] at h
    by_cases hlt : cp.cash_balance < ev.shares_to_vest * (ev.exercise_price.getD 0)
    · rw [if_pos hlt] at h; cases h
    · rw [if_neg hlt] at h
      split at h
      · cases h
      · injection h with h1 h2
        subst h2
        rfl

/-- Employee 5's cash portfolio holding 2000. -/
def c9CashP : Portfolio :=
  { id := 1, portfolio_type := .employee_cash, company_id := 10, employee_id := some 5
    portfolio_number := "CASH-E5", total_shares := 0, available_shares := 0
    locked_shares := 0, cash_balance := 2000, currency := "SAR" }

/-- A pending-exercise vesting event over 100 shares at price 12.50. -/
def c9Event : VestingEvent :=
  { id := 7, grant_id := 1, employee_id := 5, shares_to_vest := 100
    exercise_price := some (25/2), status := .pending_exercise }

/-- A store with no exercise orders yet. -/
def c9State : State :=
  { grants := [wGrant], portfolios := [c9CashP], exercise_orders := []
    cash_transfers := [], share_transfers := [], vesting_events := [c9Event] }

/-- The order the confirm handler creates on `c9State`. -/
def c9Order : ExerciseOrder :=
  { id := 1, order_number := "EX-10-0", company_id := 10, employee_id := 5
    vesting_event_id := 7, grant_id := 1, shares_to_exercise := 100
    exercise_price_per_share := 25/2, total_exercise_cost := 100 * (25/2)
    cash_portfolio_id := 1, cash_balance_at_order := 2000, sufficient_funds := true
    status := .pending, rejection_reason := none, processed_by := none }

/-- The store after the order is created. -/
def c9Final : State :=
  { grants := [wGrant], portfolios := [c9CashP], exercise_orders := [c9Order]
    cash_transfers := [], share_transfers := []
    vesting_events := [{ id := 7, grant_id := 1, employee_id := 5, shares_to_vest := 100
                         exercise_price := some (25/2), status := .pending_exercise }] }

/-- Witness for `created_order_cost_invariant`: creating with shares = 100
and price = 12.50 yields an order whose `total_exercise_cost` is exactly
`100 × 12.50 = 1250`. -/
theorem created_order_cost_invariant_witness :
    handleConfirmExercise c9State c9Event (some c9CashP) 5 10 0 = .ok c9Final c9Order ∧
    c9Order.total_exercise_cost
      = c9Order.shares_to_exercise * c9Order.exercise_price_per_share ∧
    c9Order.shares_to_exercise = 100 ∧
    c9Order.exercise_price_per_share = 25/2 ∧
    c9Order.total_exercise_cost = 1250 := by
  have hres : handleConfirmExercise c9State c9Event (some c9CashP) 5 10 0
      = .ok c9Final c9Order := by
    have hlt : ¬ (c9CashP.cash_balance
        < c9Event.shares_to_vest * (c9Event.exercise_price.getD 0)) := by
      norm_num [c9CashP, c9Event]
    simp only [handleConfirmExercise]
    rw [if_neg hlt]
    rfl
  exact ⟨hres,
    created_order_cost_invariant c9State c9Event (some c9CashP) 5 10 0 c9Final c9Order hres,
    rfl, rfl, by norm_num [c9Order]⟩

/-- C10: for a vesting event whose `exercise_price` is null, creation does
not fail: the price is coalesced to 0, the total cost is 0, and the
sufficient-funds check passes for every (non-negative) cash balance; the
created order has price 0, cost 0, status `pending` and
`sufficient_funds = true`.  `hfresh` is the uniqueness precondition: no
existing order on this vesting event or with the generated order number. -/
theorem create_null_price_succeeds (s : State) (ev : VestingEvent) (cp : Portfolio)
    (employeeId companyId now : Nat)
    (hprice : ev.exercise_price = none)
    (hbal : 0 ≤ cp.cash_balance)
    (hfresh : (s.exercise_orders.any fun e =>
        e.order_number = "EX-" ++ toString companyId ++ "-" ++ toString now
          || e.vesting_event_id = ev.id) = false) :
    ∃ s' o, handleConfirmExercise s ev (some cp) employeeId companyId now = .ok s' o ∧
      o.exercise_price_per_share = 0 ∧ o.total_exercise_cost = 0 ∧
      o.status = .pending ∧ o.sufficient_funds = true := by
  have hlt : ¬ (cp.cash_balance < ev.shares_to_vest * (ev.exercise_price.getD 0)) := by
    rw [hprice]
    simpa using not_lt.mpr hbal
  have hmain : handleConfirmExercise s ev (some cp) employeeId companyId now
      = .ok (updateVestingEvent
          { s with exercise_orders := s.exercise_orders ++
              [{ id := freshOrderId s
                 order_number := "EX-" ++ toString companyId ++ "-" ++ toString now
                 company_id := companyId
                 employee_id := employeeId
                 vesting_event_id := ev.id
                 grant_id := ev.grant_id
                 shares_to_exercise := ev.shares_to_vest
                 exercise_price_per_share := ev.exercise_price.getD 0
                 total_exercise_cost := ev.shares_to_vest * (ev.exercise_price.getD 0)
                 cash_portfolio_id := cp.id
                 cash_balance_at_order := cp.cash_balance
                 sufficient_funds := true
                 status := .pending
                 rejection_reason := none
                 processed_by := none }] } ev.id
          fun v => { v with status := VestingStatus.pending_exercise })
        { id := freshOrderId s
          order_number := "EX-" ++ toString companyId ++ "-" ++ toString now
          company_id := companyId
          employee_id := employeeId
          vesting_event_id := ev.id
          grant_id := ev.grant_id
          shares_to_exercise := ev.shares_to_vest
          exercise_price_per_share := ev.exercise_price.getD 0
          total_exercise_cost := ev.shares_to_vest * (ev.exercise_price.getD 0)
          cash_portfolio_id := cp.id
          cash_balance_at_order := cp.cash_balance
          sufficient_funds := true
          status := .pending
          rejection_reason := none
          processed_by := none } := by
    simp only [handleConfirmExercise]
    rw [if_neg hlt]
    simp only [insertExerciseOrder]
    rw [hfresh]
    rw [if_neg Bool.false_ne_true]
  refine ⟨_, _, hmain, ?_, ?_, rfl, rfl⟩
  · simp [hprice]
  · simp [hprice]

/-- Employee 5's cash portfolio with balance 0. -/
def c10CashP : Portfolio :=
  { id := 1, portfolio_type := .employee_cash, company_id := 10, employee_id := some 5
    portfolio_number := "CASH-E5", total_shares := 0, available_shares := 0
    locked_shares := 0, cash_balance := 0, currency := "SAR" }

/-- A pending-exercise vesting event whose `exercise_price` is null. -/
def c10Event : VestingEvent :=
  { id := 8, grant_id := 1, employee_id := 5, shares_to_vest := 100
    exercise_price := none, status := .pending_exercise }

/-- A store with no exercise orders and a zero-balance cash portfolio. -/
def c10State : State :=
  { grants := [wGrant], portfolios := [c10CashP], exercise_orders := []
    cash_transfers := [], share_transfers := [], vesting_events := [c10Event] }

/-- Witness for `create_null_price_succeeds`: even with balance 0, the
null-priced event's order is created with price 0 and cost 0. -/
theorem create_null_price_succeeds_witness :
    c10Event.exercise_price = none ∧
    (0 : ℚ) ≤ c10CashP.cash_balance ∧
    (c10State.exercise_orders.any fun e =>
        e.order_number = "EX-" ++ toString 10 ++ "-" ++ toString 0
          || e.vesting_event_id = c10Event.id) = false ∧
    (∃ s' o, handleConfirmExercise c10State c10Event (some c10CashP) 5 10 0 = .ok s' o ∧
      o.exercise_price_per_share = 0 ∧ o.total_exercise_cost = 0 ∧
      o.status = .pending ∧ o.sufficient_funds = true) :=
  ⟨rfl, le_refl 0, rfl,
   create_null_price_succeeds c10State c10Event c10CashP 5 10 0 rfl (le_refl 0) rfl⟩

/-- State carried by a `RejectResult`. -/
def rejectStateOf : RejectResult → State
  | .ok s => s
  | .err s => s

/-- Employee 5's cash portfolio holding 5000 — amply funded. -/
def c7CashP : Portfolio :=
  { id := 1, portfolio_type := .employee_cash, company_id := 10, employee_id := some 5
    portfolio_number := "CASH-E5", total_shares := 0, available_shares := 0
    locked_shares := 0, cash_balance := 5000, currency := "SAR" }

/-- A pending order on vesting event 7. -/
def c7Order : ExerciseOrder :=
  { id := 100, order_number := "EX-10-0", company_id := 10, employee_id := 5
    vesting_event_id := 7, grant_id := 1, shares_to_exercise := 100
    exercise_price_per_share := 25/2, total_exercise_cost := 1250
    cash_portfolio_id := 1, cash_balance_at_order := 5000, sufficient_funds := true
    status := .pending, rejection_reason := none, processed_by := none }

/-- The vesting event of `c7Order`. -/
def c7Event : VestingEvent :=
  { id := 7, grant_id := 1, employee_id := 5, shares_to_vest := 100
    exercise_price := some (25/2), status := .pending_exercise }

/-- A store holding the pending order 100 on vesting event 7. -/
def c7State0 : State :=
  { grants := [wGrant], portfolios := [c7CashP], exercise_orders := [c7Order]
    cash_transfers := [], share_transfers := [], vesting_events := [c7Event] }

/-- The store after rejecting order 100 with reason "price disputed". -/
def c7State1 : State := rejectStateOf (handleReject c7State0 c7Order "price disputed")

/-- C7 counterexample: rejecting order 100 succeeds — the order becomes
`rejected` (terminal) and vesting event 7 reverts to `pending_exercise` —
yet creating a new exercise order for that same vesting event then fails
with a uniqueness violation: the `UNIQUE(vesting_event_id)` constraint on
`exercise_orders` counts the terminal order, so resubmission is refused. -/
theorem resubmit_after_reject_blocked_cex :
    handleReject c7State0 c7Order "price disputed" = .ok c7State1 ∧
    orderStatusOf c7State1 100 = some .rejected ∧
    vestingStatusOf c7State1 7 = some .pending_exercise ∧
    handleConfirmExercise c7State1 c7Event (some c7CashP) 5 10 1
      = .err .uniqueViolation c7State1 := by
  refine ⟨rfl, rfl, rfl, ?_⟩
  have hlt : ¬ (c7CashP.cash_balance
      < c7Event.shares_to_vest * (c7Event.exercise_price.getD 0)) := by
    norm_num [c7CashP, c7Event]
  simp only [handleConfirmExercise]
  rw [if_neg hlt]
  rfl

/-- C7 (amended): whenever any existing exercise order — terminal or not —
references a vesting event, a new order for that vesting event cannot be
created: the insert violates `UNIQUE(vesting_event_id)` and the confirm
handler fails, leaving the store unchanged.  In particular, after a
successful reject the employee cannot resubmit. -/
theorem create_blocked_by_existing_order (s : State) (ev : VestingEvent) (cp : Portfolio)
    (employeeId companyId now : Nat)
    (hfunds : ¬ cp.cash_balance < ev.shares_to_vest * (ev.exercise_price.getD 0))
    (hex : ∃ e ∈ s.exercise_orders, e.vesting_event_id = ev.id) :
    handleConfirmExercise s ev (some cp) employeeId companyId now
      = .err .uniqueViolation s := by
  obtain ⟨e, he, hev⟩ := hex
  have hany : (s.exercise_orders.any fun e' =>
      e'.order_number = "EX-" ++ toString companyId ++ "-" ++ toString now
        || e'.vesting_event_id = ev.id) = true :=
    List.any_eq_true.mpr ⟨e, he, by simp [hev]⟩
  simp only [handleConfirmExercise]
  rw [if_neg hfunds]
  simp only [insertExerciseOrder]
  rw [hany]
  rw [if_pos rfl]

/-- Witness for `create_blocked_by_existing_order`, instantiated at the
post-reject store `c7State1`: the rejected order 100 still references
vesting event 7, so the resubmission attempt fails. -/
theorem create_blocked_by_existing_order_witness :
    (¬ c7CashP.cash_balance
      < c7Event.shares_to_vest * (c7Event.exercise_price.getD 0)) ∧
    (∃ e ∈ c7State1.exercise_orders, e.vesting_event_id = c7Event.id) ∧
    handleConfirmExercise c7State1 c7Event (some c7CashP) 5 10 2
      = .err .uniqueViolation c7State1 := by
  have hfunds : ¬ (c7CashP.cash_balance
      < c7Event.shares_to_vest * (c7Event.exercise_price.getD 0)) := by
    norm_num [c7CashP, c7Event]
  have hex : ∃ e ∈ c7State1.exercise_orders, e.vesting_event_id = c7Event.id := by
    refine ⟨_, List.mem_cons_self _ _, ?_⟩
    rfl
  exact ⟨hfunds, hex,
    create_blocked_by_existing_order c7State1 c7Event c7CashP 5 10 2 hfunds hex⟩
